import Mathlib

/-!
Verification of the rustmade platform layer (src/src/main.rs) against its
specification.  The Rust source is shallowly embedded: machine integers become
`Nat`/`Int`, raw memory becomes an `Option Allocation` (with `none` for a null
pointer) or a byte map `Nat → Nat`, Win32 side effects become explicit effect
lists, and the panicking paths become `Option` results.
-/

/- ------------------------------------------------------------------ -/
/- PixelSurface: Win32OffscreenBuffer and win32_resize_dib_section    -/
/- ------------------------------------------------------------------ -/

/-- An owned memory block returned by VirtualAlloc: an identity for the
allocation and its length in bytes. -/
structure Allocation where
  id : Nat
  size : Nat
deriving DecidableEq, Repr

/-- The fields of BITMAPINFOHEADER that win32_resize_dib_section fills in
(main.rs 105-116); the remaining fields stay zero via `..Default::default()`. -/
structure BitmapInfoHeader where
  biSize : Nat
  biWidth : Int
  biHeight : Int
  biPlanes : Nat
  biBitCount : Nat
deriving DecidableEq, Repr

/-- Win32OffscreenBuffer (main.rs 53-60).  `memory` is the raw pointer: `none`
models a null pointer, `some` an owned allocation. -/
structure Win32OffscreenBuffer where
  bitmap_info : BitmapInfoHeader
  width : Int
  height : Int
  pitch : Int
  memory : Option Allocation
deriving DecidableEq, Repr

/-- The `#[derive(Default)]` value of Win32OffscreenBuffer: zero geometry and a
null memory pointer (main.rs 53, 304). -/
def Win32OffscreenBuffer.default : Win32OffscreenBuffer :=
  { bitmap_info := { biSize := 0, biWidth := 0, biHeight := 0, biPlanes := 0, biBitCount := 0 },
    width := 0, height := 0, pitch := 0, memory := none }

/-- win32_resize_dib_section (main.rs 80-132).  The VirtualFree call happens
exactly when the old pointer is non-null (main.rs 87-89); the returned `Nat`
counts the frees performed.  VirtualAlloc is modelled by a fresh allocation
`freshId` of the requested byte length `(width * height * bytes_per_pixel) as usize`
(allocation failure aborts the process in the source and is not part of the
success path modelled here).  `biHeight` is set to the negated height so the
bitmap is treated as top-down (main.rs 109). -/
def win32_resize_dib_section (buffer : Win32OffscreenBuffer) (width height : Int)
    (freshId : Nat) : Win32OffscreenBuffer × Nat :=
  let bytes_per_pixel : Int := 4
  let buffer_size : Nat := (width * height * bytes_per_pixel).toNat
  let pitch : Int := width * bytes_per_pixel
  let frees : Nat :=
    match buffer.memory with
    | none => 0
    | some _ => 1
  let bitmap_info : BitmapInfoHeader :=
    { biSize := 40, biWidth := width, biHeight := -height, biPlanes := 1, biBitCount := 32 }
  ({ bitmap_info := bitmap_info, width := width, height := height, pitch := pitch,
     memory := some { id := freshId, size := buffer_size } }, frees)

/-- Modelled from the spec: a standalone `release(surface)` operation does not
appear in src/ (the repository only frees inside win32_resize_dib_section); this
follows the spec contract "frees owned memory exactly once; releasing an
already-released surface must be a no-op, not a double-free", using the same
null-pointer guard the source uses before VirtualFree (main.rs 87-89).  The
returned `Nat` counts the frees performed. -/
def release (buffer : Win32OffscreenBuffer) : Win32OffscreenBuffer × Nat :=
  match buffer.memory with
  | none => (buffer, 0)
  | some _ => ({ buffer with memory := none }, 1)

/- ------------------------------------------------------------------ -/
/- Pixel format: render_gradient's packing and store (main.rs 210-234) -/
/- ------------------------------------------------------------------ -/

/-- Byte `i` (little endian, low to high address) of a 32-bit word. -/
def byteAt (w i : Nat) : Nat := w / 2 ^ (8 * i) % 256

/-- The 32-bit pixel word built at main.rs 229:
`(a as u32) << 24 | (r as u32) << 16 | (g as u32) << 8 | (b as u32)`. -/
def packPixel (b g r a : Nat) : Nat :=
  a <<< 24 ||| r <<< 16 ||| g <<< 8 ||| b

/-- The little-endian 32-bit store `*pixel_ptr.add(offset) = pixel`
(main.rs 230) as four byte writes into a byte-addressed memory. -/
def writeU32LE (mem : Nat → Nat) (addr w : Nat) : Nat → Nat :=
  fun i =>
    if i = addr then byteAt w 0
    else if i = addr + 1 then byteAt w 1
    else if i = addr + 2 then byteAt w 2
    else if i = addr + 3 then byteAt w 3
    else mem i

/-- Byte address of pixel `(x, y)`: render_gradient computes the 32-bit word
offset `y * buffer.width + x` (main.rs 216) and the cast of the buffer pointer
to a `u32` pointer scales it by 4 bytes (main.rs 211, 230). -/
def pixelAddr (width x y : Nat) : Nat := 4 * (y * width + x)

/-- Writing byte tuple `(b, g, r, a)` at `(x, y)` exactly as render_gradient
does: pack the word (main.rs 229) and store it at the pixel address
(main.rs 230). -/
def writePixel (mem : Nat → Nat) (width x y b g r a : Nat) : Nat → Nat :=
  writeU32LE mem (pixelAddr width x y) (packPixel b g r a)

/-- Reading the four bytes at a byte offset, low to high address. -/
def readPixel (mem : Nat → Nat) (addr : Nat) : Nat × Nat × Nat × Nat :=
  (mem addr, mem (addr + 1), mem (addr + 2), mem (addr + 3))

/- ------------------------------------------------------------------ -/
/- DevicePoller: gamepad state and read_controller_state              -/
/- ------------------------------------------------------------------ -/

/-- GamepadButtons (main.rs 10-25). -/
structure GamepadButtons where
  up : Bool
  down : Bool
  left : Bool
  right : Bool
  start : Bool
  back : Bool
  l_thumb : Bool
  r_thumb : Bool
  l_shoulder : Bool
  r_shoulder : Bool
  a : Bool
  b : Bool
  x : Bool
  y : Bool
deriving DecidableEq, Repr

/-- GamepadTriggers (main.rs 27-31): two u8 values. -/
structure GamepadTriggers where
  l_trigger : Nat
  r_trigger : Nat
deriving DecidableEq, Repr

/-- GamepadSticks (main.rs 33-39): four i16 values. -/
structure GamepadSticks where
  l_stick_x : Int
  l_stick_y : Int
  r_stick_x : Int
  r_stick_y : Int
deriving DecidableEq, Repr

/-- GamepadState (main.rs 41-46). -/
structure GamepadState where
  buttons : GamepadButtons
  triggers : GamepadTriggers
  sticks : GamepadSticks
deriving DecidableEq, Repr

/-- The `#[derive(Default)]` value of GamepadButtons: all flags false. -/
def GamepadButtons.default : GamepadButtons :=
  { up := false, down := false, left := false, right := false, start := false,
    back := false, l_thumb := false, r_thumb := false, l_shoulder := false,
    r_shoulder := false, a := false, b := false, x := false, y := false }

/-- The `#[derive(Default)]` value of GamepadTriggers. -/
def GamepadTriggers.default : GamepadTriggers := { l_trigger := 0, r_trigger := 0 }

/-- The `#[derive(Default)]` value of GamepadSticks. -/
def GamepadSticks.default : GamepadSticks :=
  { l_stick_x := 0, l_stick_y := 0, r_stick_x := 0, r_stick_y := 0 }

/-- The `#[derive(Default)]` value of GamepadState (main.rs 298). -/
def GamepadState.default : GamepadState :=
  { buttons := GamepadButtons.default, triggers := GamepadTriggers.default,
    sticks := GamepadSticks.default }

/-- XINPUT_GAMEPAD (the raw report read at main.rs 250): a u16 button bitmask,
two u8 triggers and four i16 stick axes. -/
structure XInputGamepad where
  wButtons : Nat
  bLeftTrigger : Nat
  bRightTrigger : Nat
  sThumbLX : Int
  sThumbLY : Int
  sThumbRX : Int
  sThumbRY : Int
deriving DecidableEq, Repr

def XINPUT_GAMEPAD_DPAD_UP : Nat := 0x0001
def XINPUT_GAMEPAD_DPAD_DOWN : Nat := 0x0002
def XINPUT_GAMEPAD_DPAD_LEFT : Nat := 0x0004
def XINPUT_GAMEPAD_DPAD_RIGHT : Nat := 0x0008
def XINPUT_GAMEPAD_START : Nat := 0x0010
def XINPUT_GAMEPAD_BACK : Nat := 0x0020
def XINPUT_GAMEPAD_LEFT_THUMB : Nat := 0x0040
def XINPUT_GAMEPAD_RIGHT_THUMB : Nat := 0x0080
def XINPUT_GAMEPAD_LEFT_SHOULDER : Nat := 0x0100
def XINPUT_GAMEPAD_RIGHT_SHOULDER : Nat := 0x0200
def XINPUT_GAMEPAD_A : Nat := 0x1000
def XINPUT_GAMEPAD_B : Nat := 0x2000
def XINPUT_GAMEPAD_X : Nat := 0x4000
def XINPUT_GAMEPAD_Y : Nat := 0x8000

/-- The snapshot-translation block of read_controller_state (main.rs 254-276):
each button flag is `(wButtons & MASK) > 0`, the triggers and stick axes are
copied verbatim. -/
def translate_gamepad (gamepad : XInputGamepad) : GamepadState :=
  { buttons :=
      { up := decide (gamepad.wButtons &&& XINPUT_GAMEPAD_DPAD_UP > 0),
        down := decide (gamepad.wButtons &&& XINPUT_GAMEPAD_DPAD_DOWN > 0),
        left := decide (gamepad.wButtons &&& XINPUT_GAMEPAD_DPAD_LEFT > 0),
        right := decide (gamepad.wButtons &&& XINPUT_GAMEPAD_DPAD_RIGHT > 0),
        start := decide (gamepad.wButtons &&& XINPUT_GAMEPAD_START > 0),
        back := decide (gamepad.wButtons &&& XINPUT_GAMEPAD_BACK > 0),
        l_thumb := decide (gamepad.wButtons &&& XINPUT_GAMEPAD_LEFT_THUMB > 0),
        r_thumb := decide (gamepad.wButtons &&& XINPUT_GAMEPAD_RIGHT_THUMB > 0),
        l_shoulder := decide (gamepad.wButtons &&& XINPUT_GAMEPAD_LEFT_SHOULDER > 0),
        r_shoulder := decide (gamepad.wButtons &&& XINPUT_GAMEPAD_RIGHT_SHOULDER > 0),
        a := decide (gamepad.wButtons &&& XINPUT_GAMEPAD_A > 0),
        b := decide (gamepad.wButtons &&& XINPUT_GAMEPAD_B > 0),
        x := decide (gamepad.wButtons &&& XINPUT_GAMEPAD_X > 0),
        y := decide (gamepad.wButtons &&& XINPUT_GAMEPAD_Y > 0) },
    triggers :=
      { l_trigger := gamepad.bLeftTrigger, r_trigger := gamepad.bRightTrigger },
    sticks :=
      { l_stick_x := gamepad.sThumbLX, l_stick_y := gamepad.sThumbLY,
        r_stick_x := gamepad.sThumbRX, r_stick_y := gamepad.sThumbRY } }

/-- Outcome of XInputGetState for one device index in one poll cycle
(main.rs 248): ERROR_SUCCESS with a raw report, or anything else. -/
inductive DeviceQuery where
  | connected (gamepad : XInputGamepad)
  | disconnected
deriving DecidableEq, Repr

def XUSER_MAX_COUNT : Nat := 4

/-- The body of one iteration of the polling loop (main.rs 246-291): when the
device is connected its translated report replaces the contents of the single
shared slot GLOBAL_GAMEPAD_0; otherwise the slot is left untouched. -/
def poll_step (query : Nat → DeviceQuery) (s : GamepadState) (i : Nat) : GamepadState :=
  match query i with
  | DeviceQuery.connected g => translate_gamepad g
  | DeviceQuery.disconnected => s

/-- read_controller_state (main.rs 241-294): iterate the device indices
`0 .. XUSER_MAX_COUNT` in order, all of them writing into the one shared slot
GLOBAL_GAMEPAD_0 (main.rs 64, 251). -/
def read_controller_state (query : Nat → DeviceQuery) (slot : GamepadState) : GamepadState :=
  (List.range XUSER_MAX_COUNT).foldl (poll_step query) slot

/-- Model of `i16::abs` with the debug-build overflow check: negating
`i16::MIN = -32768` overflows, which aborts; `none` models that abort.  The
source itself records the abort in the TODO at main.rs 287. -/
def i16_abs (x : Int) : Option Int :=
  if x = -32768 then none else some (Int.natAbs x)

/-- The per-device body of read_controller_state for a connected device
including the debug check `l_stick_x.abs() > i16::MAX / 4` that follows the
snapshot assignments (main.rs 254-290); `none` models an abort of the poll
path. -/
def read_controller_body (gamepad : XInputGamepad) : Option GamepadState :=
  let s := translate_gamepad gamepad
  match i16_abs s.sticks.l_stick_x with
  | none => none
  | some _ => some s

/- ------------------------------------------------------------------ -/
/- EventPump: wnd_proc (main.rs 154-208)                              -/
/- ------------------------------------------------------------------ -/

/-- The message kinds wnd_proc distinguishes (main.rs 160-206). -/
inductive WndMsg where
  | wm_destroy
  | wm_close
  | wm_quit
  | wm_keydown
  | wm_lbuttondown
  | wm_paint
  | other
deriving DecidableEq, Repr

/-- The global state wnd_proc touches: GLOBAL_RUNNING (main.rs 62) and whether
GLOBAL_BUFFER is null (main.rs 63, 189). -/
structure WndState where
  running : Bool
  bufferNull : Bool
deriving DecidableEq, Repr

/-- Observable side effects of one wnd_proc dispatch.  `presentBuffer` stands
for the whole paint path BeginPaint / win32_display_buffer_in_window / EndPaint
(main.rs 193-200). -/
inductive WndEffect where
  | postQuitMessage
  | printKeyDown
  | printMouseClick
  | presentBuffer
  | defWindowProc
deriving DecidableEq, Repr

/-- wnd_proc (main.rs 154-208): per message kind, the updated globals and the
side effects performed.  WM_DESTROY posts a quit message and leaves
GLOBAL_RUNNING untouched (main.rs 161-166); WM_CLOSE and WM_QUIT set
GLOBAL_RUNNING to false (main.rs 167-178); WM_PAINT with a null GLOBAL_BUFFER
falls through to DefWindowProcW (main.rs 188-191), otherwise it presents the
buffer; unrecognised messages go to DefWindowProcW (main.rs 204-206). -/
def wnd_proc (msg : WndMsg) (s : WndState) : WndState × List WndEffect :=
  match msg with
  | WndMsg.wm_destroy => (s, [WndEffect.postQuitMessage])
  | WndMsg.wm_close => ({ s with running := false }, [])
  | WndMsg.wm_quit => ({ s with running := false }, [])
  | WndMsg.wm_keydown => (s, [WndEffect.printKeyDown])
  | WndMsg.wm_lbuttondown => (s, [WndEffect.printMouseClick])
  | WndMsg.wm_paint =>
      if s.bufferNull then (s, [WndEffect.defWindowProc])
      else (s, [WndEffect.presentBuffer])
  | WndMsg.other => (s, [WndEffect.defWindowProc])

/- ------------------------------------------------------------------ -/
/- FrameDriver startup: main (main.rs 296-344)                        -/
/- ------------------------------------------------------------------ -/

/-- The global mutable state main initialises. -/
structure Globals where
  running : Bool
  bufferNull : Bool
deriving DecidableEq, Repr

/-- The static initialisers of the globals (main.rs 62-63): GLOBAL_RUNNING is
false, GLOBAL_BUFFER is null. -/
def initialGlobals : Globals := { running := false, bufferNull := true }

/-- The writes main performs to the globals between process start and the frame
loop's first read of GLOBAL_RUNNING (main.rs 300-344): the buffer is allocated
unconditionally (main.rs 304-306); GLOBAL_RUNNING is set to true only after
CreateWindowExW succeeds (main.rs 336-337), and the `while GLOBAL_RUNNING` loop
(main.rs 344) is entered only in that same branch. -/
def main_before_loop (g : Globals) (windowOk : Bool) : Globals :=
  let g1 : Globals := { g with bufferNull := false }
  if windowOk then { g1 with running := true } else g1

/- ------------------------------------------------------------------ -/
/- Concrete reports used in scenarios                                 -/
/- ------------------------------------------------------------------ -/

/-- Raw report with only the dpad-up bit set and a left trigger of 200. -/
def dpadUpTrigger200 : XInputGamepad :=
  { wButtons := XINPUT_GAMEPAD_DPAD_UP, bLeftTrigger := 200, bRightTrigger := 0,
    sThumbLX := 0, sThumbLY := 0, sThumbRX := 0, sThumbRY := 0 }

/-- Raw report with only the dpad-down bit set. -/
def dpadDownReport : XInputGamepad :=
  { wButtons := XINPUT_GAMEPAD_DPAD_DOWN, bLeftTrigger := 0, bRightTrigger := 0,
    sThumbLX := 0, sThumbLY := 0, sThumbRX := 0, sThumbRY := 0 }

/-- Raw report whose left stick x axis is `i16::MIN = -32768`. -/
def minLXReport : XInputGamepad :=
  { wButtons := 0, bLeftTrigger := 0, bRightTrigger := 0,
    sThumbLX := -32768, sThumbLY := 0, sThumbRX := 0, sThumbRY := 0 }

/-- Poll cycle in which devices 0 and 1 are both connected. -/
def twoControllersQuery : Nat → DeviceQuery := fun i =>
  if i = 0 then DeviceQuery.connected dpadUpTrigger200
  else if i = 1 then DeviceQuery.connected dpadDownReport
  else DeviceQuery.disconnected

/-- Poll cycle in which only device 1 is connected. -/
def oneConnectedQuery : Nat → DeviceQuery := fun i =>
  if i = 1 then DeviceQuery.connected dpadDownReport else DeviceQuery.disconnected

/- ------------------------------------------------------------------ -/
/- Helper lemmas                                                      -/
/- ------------------------------------------------------------------ -/

/-- Testing `(n & 2^k) > 0`, as the source does, is testing bit `k`. -/
lemma and_two_pow_pos (n k : Nat) : decide (0 < n &&& 2 ^ k) = n.testBit k := by
  rw [Nat.and_two_pow]
  cases h : n.testBit k
  · simp
  · simp [Nat.pos_pow_of_pos]

/-- Bitwise or of disjoint summands is addition. -/
lemma mul_pow_lor_eq_add (k : Nat) :
    ∀ x y : Nat, y < 2 ^ k → x * 2 ^ k ||| y = x * 2 ^ k + y := by
  induction k with
  | zero =>
    intro x y hy
    interval_cases y
    simp
  | succ k ih =>
    intro x y hy
    have h1 : x * 2 ^ (k + 1) = Nat.bit false (x * 2 ^ k) := by
      simp [Nat.bit_val, pow_succ]
      ring
    have h2 : y = Nat.bit y.bodd y.div2 := (Nat.bit_decomp y).symm
    have hdiv : y.div2 < 2 ^ k := by
      rw [Nat.div2_val]
      rw [pow_succ] at hy
      exact Nat.div_lt_of_lt_mul (by omega)
    rw [h1, h2, Nat.lor_bit, ih _ _ hdiv]
    simp only [Nat.bit_val]
    cases y.bodd <;> simp <;> ring

/-- The packed pixel word in additive form, for byte-sized channels. -/
lemma packPixel_eq (b g r a : Nat) (hb : b < 256) (hg : g < 256) (hr : r < 256)
    (ha : a < 256) :
    packPixel b g r a = a * 2 ^ 24 + r * 2 ^ 16 + g * 2 ^ 8 + b := by
  unfold packPixel
  rw [Nat.shiftLeft_eq, Nat.shiftLeft_eq, Nat.shiftLeft_eq, Nat.lor_assoc, Nat.lor_assoc]
  rw [mul_pow_lor_eq_add 8 g b (by omega)]
  rw [mul_pow_lor_eq_add 16 r (g * 2 ^ 8 + b) (by norm_num; omega)]
  rw [mul_pow_lor_eq_add 24 a (r * 2 ^ 16 + (g * 2 ^ 8 + b)) (by norm_num; omega)]
  ring

lemma byteAt_pack0 (b g r a : Nat) (hb : b < 256) :
    byteAt (a * 2 ^ 24 + r * 2 ^ 16 + g * 2 ^ 8 + b) 0 = b := by
  unfold byteAt
  norm_num
  omega

lemma byteAt_pack1 (b g r a : Nat) (hb : b < 256) (hg : g < 256) :
    byteAt (a * 2 ^ 24 + r * 2 ^ 16 + g * 2 ^ 8 + b) 1 = g := by
  unfold byteAt
  norm_num
  omega

lemma byteAt_pack2 (b g r a : Nat) (hb : b < 256) (hg : g < 256) (hr : r < 256) :
    byteAt (a * 2 ^ 24 + r * 2 ^ 16 + g * 2 ^ 8 + b) 2 = r := by
  unfold byteAt
  norm_num
  omega

lemma byteAt_pack3 (b g r a : Nat) (hb : b < 256) (hg : g < 256) (hr : r < 256)
    (ha : a < 256) :
    byteAt (a * 2 ^ 24 + r * 2 ^ 16 + g * 2 ^ 8 + b) 3 = a := by
  unfold byteAt
  norm_num
  omega

/- ------------------------------------------------------------------ -/
/- Claim theorems                                                     -/
/- ------------------------------------------------------------------ -/

/-- C1: for every positive width and height, after win32_resize_dib_section
the surface's pitch equals width*4, its width and height fields equal the
requested values, and the owned memory block's length equals width*height*4
bytes. -/
theorem win32_resize_dib_section_geometry (buffer : Win32OffscreenBuffer)
    (width height : Int) (freshId : Nat) (hw : 0 < width) (hh : 0 < height) :
    (win32_resize_dib_section buffer width height freshId).1.pitch = width * 4 ∧
    (win32_resize_dib_section buffer width height freshId).1.width = width ∧
    (win32_resize_dib_section buffer width height freshId).1.height = height ∧
    ∃ alloc : Allocation,
      (win32_resize_dib_section buffer width height freshId).1.memory = some alloc ∧
      (alloc.size : Int) = width * height * 4 := by
  refine ⟨rfl, rfl, rfl, ⟨_, rfl, ?_⟩⟩
  simp only []
  rw [Int.toNat_of_nonneg (by positivity)]

/-- C1 witness: resizing to 1280 by 720 gives pitch 5120 and a 3686400-byte
allocation. -/
theorem win32_resize_dib_section_geometry_witness :
    (win32_resize_dib_section Win32OffscreenBuffer.default 1280 720 1).1.pitch = 1280 * 4 ∧
    (win32_resize_dib_section Win32OffscreenBuffer.default 1280 720 1).1.width = 1280 ∧
    (win32_resize_dib_section Win32OffscreenBuffer.default 1280 720 1).1.height = 720 ∧
    ∃ alloc : Allocation,
      (win32_resize_dib_section Win32OffscreenBuffer.default 1280 720 1).1.memory = some alloc ∧
      (alloc.size : Int) = 1280 * 720 * 4 :=
  win32_resize_dib_section_geometry Win32OffscreenBuffer.default 1280 720 1
    (by norm_num) (by norm_num)

/-- C8: releasing a surface that owns memory frees it exactly once and a second
release is a no-op; releasing or resizing a surface holding no memory performs
no free; resizing a 1280x720 surface to 640x480 frees the old allocation
exactly once and yields stride 2560 and byte length 640*480*4 = 1228800. -/
theorem release_frees_exactly_once (b : Win32OffscreenBuffer)
    (halloc : b.memory.isSome = true) :
    ((release b).2 = 1 ∧ (release b).1.memory = none) ∧
    (release (release b).1 = ((release b).1, 0)) ∧
    (∀ c : Win32OffscreenBuffer, c.memory = none → release c = (c, 0)) ∧
    (∀ c : Win32OffscreenBuffer, c.memory = none →
      ∀ w h : Int, ∀ i : Nat, (win32_resize_dib_section c w h i).2 = 0) ∧
    ((win32_resize_dib_section
        (win32_resize_dib_section Win32OffscreenBuffer.default 1280 720 1).1 640 480 2).2 = 1 ∧
     (win32_resize_dib_section
        (win32_resize_dib_section Win32OffscreenBuffer.default 1280 720 1).1 640 480 2).1.pitch
        = 2560 ∧
     ∃ alloc : Allocation,
       (win32_resize_dib_section
          (win32_resize_dib_section Win32OffscreenBuffer.default 1280 720 1).1 640 480 2).1.memory
          = some alloc ∧ alloc.size = 1228800) := by
  obtain ⟨al, hal⟩ := Option.isSome_iff_exists.mp halloc
  refine ⟨?_, ?_, ?_, ?_, ?_⟩
  · simp [release, hal]
  · simp [release, hal]
  · intro c hc
    simp [release, hc]
  · intro c hc w h i
    simp [win32_resize_dib_section, hc]
  · refine ⟨rfl, rfl, ⟨_, rfl, rfl⟩⟩

/-- C8 witness: instantiated at a surface owning allocation 7 of 16 bytes. -/
theorem release_frees_exactly_once_witness :
    ((release { Win32OffscreenBuffer.default with memory := some { id := 7, size := 16 } }).2 = 1 ∧
     (release { Win32OffscreenBuffer.default with memory := some { id := 7, size := 16 } }).1.memory
       = none) ∧
    (release (release { Win32OffscreenBuffer.default with
        memory := some { id := 7, size := 16 } }).1 =
      ((release { Win32OffscreenBuffer.default with memory := some { id := 7, size := 16 } }).1, 0)) ∧
    (∀ c : Win32OffscreenBuffer, c.memory = none → release c = (c, 0)) ∧
    (∀ c : Win32OffscreenBuffer, c.memory = none →
      ∀ w h : Int, ∀ i : Nat, (win32_resize_dib_section c w h i).2 = 0) ∧
    ((win32_resize_dib_section
        (win32_resize_dib_section Win32OffscreenBuffer.default 1280 720 1).1 640 480 2).2 = 1 ∧
     (win32_resize_dib_section
        (win32_resize_dib_section Win32OffscreenBuffer.default 1280 720 1).1 640 480 2).1.pitch
        = 2560 ∧
     ∃ alloc : Allocation,
       (win32_resize_dib_section
          (win32_resize_dib_section Win32OffscreenBuffer.default 1280 720 1).1 640 480 2).1.memory
          = some alloc ∧ alloc.size = 1228800) :=
  release_frees_exactly_once
    { Win32OffscreenBuffer.default with memory := some { id := 7, size := 16 } } rfl

/-- C2: for every in-bounds coordinate the pixel written by render_gradient's
store lives at byte offset y*stride + x*4 (with stride = width*4 as resize sets
it), its four bytes are, low to high address, blue, green, red, alpha — the
little-endian word 0xAARRGGBB — and writing the byte tuple (b,g,r,a) then
reading the four bytes back at that offset yields the same tuple. -/
theorem pixel_offset_format_roundtrip (mem : Nat → Nat)
    (width height stride x y b g r a : Nat)
    (hs : stride = width * 4) (hx : x < width) (hy : y < height)
    (hb : b < 256) (hg : g < 256) (hr : r < 256) (ha : a < 256) :
    pixelAddr width x y = y * stride + x * 4 ∧
    packPixel b g r a = a * 2 ^ 24 + r * 2 ^ 16 + g * 2 ^ 8 + b ∧
    readPixel (writePixel mem width x y b g r a) (y * stride + x * 4) = (b, g, r, a) := by
  have haddr : pixelAddr width x y = y * stride + x * 4 := by
    subst hs
    unfold pixelAddr
    ring
  refine ⟨haddr, packPixel_eq b g r a hb hg hr ha, ?_⟩
  unfold readPixel writePixel
  rw [← haddr]
  have e0 : writeU32LE mem (pixelAddr width x y) (packPixel b g r a) (pixelAddr width x y)
      = byteAt (packPixel b g r a) 0 := by
    simp [writeU32LE]
  have e1 : writeU32LE mem (pixelAddr width x y) (packPixel b g r a) (pixelAddr width x y + 1)
      = byteAt (packPixel b g r a) 1 := by
    unfold writeU32LE
    rw [if_neg (by omega), if_pos rfl]
  have e2 : writeU32LE mem (pixelAddr width x y) (packPixel b g r a) (pixelAddr width x y + 2)
      = byteAt (packPixel b g r a) 2 := by
    unfold writeU32LE
    rw [if_neg (by omega), if_neg (by omega), if_pos rfl]
  have e3 : writeU32LE mem (pixelAddr width x y) (packPixel b g r a) (pixelAddr width x y + 3)
      = byteAt (packPixel b g r a) 3 := by
    unfold writeU32LE
    rw [if_neg (by omega), if_neg (by omega), if_neg (by omega), if_pos rfl]
  rw [e0, e1, e2, e3, packPixel_eq b g r a hb hg hr ha]
  rw [byteAt_pack0 b g r a hb, byteAt_pack1 b g r a hb hg,
    byteAt_pack2 b g r a hb hg hr, byteAt_pack3 b g r a hb hg hr ha]

/-- C2 witness: on a 4x4 surface with stride 16, the tuple (10, 20, 30, 40)
written at (1, 2) sits at offset 2*16 + 1*4 and reads back unchanged. -/
theorem pixel_offset_format_roundtrip_witness :
    pixelAddr 4 1 2 = 2 * 16 + 1 * 4 ∧
    packPixel 10 20 30 40 = 40 * 2 ^ 24 + 30 * 2 ^ 16 + 20 * 2 ^ 8 + 10 ∧
    readPixel (writePixel (fun _ => 0) 4 1 2 10 20 30 40) (2 * 16 + 1 * 4) = (10, 20, 30, 40) :=
  pixel_offset_format_roundtrip (fun _ => 0) 4 4 16 1 2 10 20 30 40
    (by norm_num) (by norm_num) (by norm_num) (by norm_num) (by norm_num)
    (by norm_num) (by norm_num)

/-- C3: for a connected device, each named button flag of the published
snapshot is the test of exactly one bit of the raw report's button mask, the
two triggers and four stick axes are copied verbatim, and the report with only
the dpad-up bit set and a left trigger of 200 yields a snapshot with `up`
true, `l_trigger` 200 and every other field false or 0. -/
theorem translate_gamepad_bits_and_verbatim :
    (∀ g : XInputGamepad,
      (translate_gamepad g).buttons.up = g.wButtons.testBit 0 ∧
      (translate_gamepad g).buttons.down = g.wButtons.testBit 1 ∧
      (translate_gamepad g).buttons.left = g.wButtons.testBit 2 ∧
      (translate_gamepad g).buttons.right = g.wButtons.testBit 3 ∧
      (translate_gamepad g).buttons.start = g.wButtons.testBit 4 ∧
      (translate_gamepad g).buttons.back = g.wButtons.testBit 5 ∧
      (translate_gamepad g).buttons.l_thumb = g.wButtons.testBit 6 ∧
      (translate_gamepad g).buttons.r_thumb = g.wButtons.testBit 7 ∧
      (translate_gamepad g).buttons.l_shoulder = g.wButtons.testBit 8 ∧
      (translate_gamepad g).buttons.r_shoulder = g.wButtons.testBit 9 ∧
      (translate_gamepad g).buttons.a = g.wButtons.testBit 12 ∧
      (translate_gamepad g).buttons.b = g.wButtons.testBit 13 ∧
      (translate_gamepad g).buttons.x = g.wButtons.testBit 14 ∧
      (translate_gamepad g).buttons.y = g.wButtons.testBit 15 ∧
      (translate_gamepad g).triggers.l_trigger = g.bLeftTrigger ∧
      (translate_gamepad g).triggers.r_trigger = g.bRightTrigger ∧
      (translate_gamepad g).sticks.l_stick_x = g.sThumbLX ∧
      (translate_gamepad g).sticks.l_stick_y = g.sThumbLY ∧
      (translate_gamepad g).sticks.r_stick_x = g.sThumbRX ∧
      (translate_gamepad g).sticks.r_stick_y = g.sThumbRY) ∧
    translate_gamepad dpadUpTrigger200 =
      { buttons := { GamepadButtons.default with up := true },
        triggers := { l_trigger := 200, r_trigger := 0 },
        sticks := GamepadSticks.default } := by
  constructor
  · intro g
    exact ⟨and_two_pow_pos g.wButtons 0, and_two_pow_pos g.wButtons 1,
      and_two_pow_pos g.wButtons 2, and_two_pow_pos g.wButtons 3,
      and_two_pow_pos g.wButtons 4, and_two_pow_pos g.wButtons 5,
      and_two_pow_pos g.wButtons 6, and_two_pow_pos g.wButtons 7,
      and_two_pow_pos g.wButtons 8, and_two_pow_pos g.wButtons 9,
      and_two_pow_pos g.wButtons 12, and_two_pow_pos g.wButtons 13,
      and_two_pow_pos g.wButtons 14, and_two_pow_pos g.wButtons 15,
      rfl, rfl, rfl, rfl, rfl, rfl⟩
  · decide

/-- C4: the code stores every connected device's snapshot in the one shared
slot GLOBAL_GAMEPAD_0, so in a cycle where devices 0 and 1 are both connected
the later-polled device 1 overwrites the snapshot produced for device 0: the
cycle ends with device 1's translation and the dpad-up flag that device 0
reported is gone. -/
theorem read_controller_state_shared_slot_overwrite :
    read_controller_state twoControllersQuery GamepadState.default
      = translate_gamepad dpadDownReport ∧
    (translate_gamepad dpadUpTrigger200).buttons.up = true ∧
    (read_controller_state twoControllersQuery GamepadState.default).buttons.up = false := by
  refine ⟨?_, rfl, ?_⟩ <;> decide

/-- C6 counterexample: in a cycle where device 0 is disconnected and device 1
is connected, the slot belonging to the disconnected device 0 — the single
shared slot — does not retain its previous value. -/
theorem read_controller_state_disconnected_slot_changed :
    oneConnectedQuery 0 = DeviceQuery.disconnected ∧
    read_controller_state oneConnectedQuery GamepadState.default ≠ GamepadState.default := by
  refine ⟨rfl, ?_⟩
  decide

/-- Helper: a cycle in which every device reports disconnected leaves the
shared slot unchanged. -/
lemma read_controller_state_all_disconnected (query : Nat → DeviceQuery)
    (slot : GamepadState)
    (hall : ∀ j, j < XUSER_MAX_COUNT → query j = DeviceQuery.disconnected) :
    read_controller_state query slot = slot := by
  have h0 := hall 0 (by decide)
  have h1 := hall 1 (by decide)
  have h2 := hall 2 (by decide)
  have h3 := hall 3 (by decide)
  show (List.range 4).foldl (poll_step query) slot = slot
  rw [show List.range 4 = [0, 1, 2, 3] from rfl]
  simp [List.foldl, poll_step, h0, h1, h2, h3]

/-- C6 amended: in every poll cycle — mixed cycles included — the iteration
for a disconnected or errored device performs no write; if the shared slot
changed over the cycle then some device was connected (only connected devices
mutate it); and a cycle in which every device reports disconnected leaves the
slot unchanged. -/
theorem read_controller_state_skip_disconnected (query : Nat → DeviceQuery)
    (slot s : GamepadState) (i : Nat)
    (hi : query i = DeviceQuery.disconnected) :
    poll_step query s i = s ∧
    (read_controller_state query slot ≠ slot →
      ∃ j, j < XUSER_MAX_COUNT ∧ ∃ g, query j = DeviceQuery.connected g) ∧
    ((∀ j, j < XUSER_MAX_COUNT → query j = DeviceQuery.disconnected) →
      read_controller_state query slot = slot) := by
  refine ⟨?_, ?_, read_controller_state_all_disconnected query slot⟩
  · simp [poll_step, hi]
  · intro hne
    by_contra hcon
    push_neg at hcon
    refine hne (read_controller_state_all_disconnected query slot ?_)
    intro j hj
    cases hq : query j with
    | connected g => exact absurd hq (hcon j hj g)
    | disconnected => rfl

/-- C6 witness: instantiated at a mixed cycle where device 1 is connected and
device 0 is disconnected — device 0's iteration writes nothing even though the
cycle does mutate the shared slot. -/
theorem read_controller_state_skip_disconnected_witness :
    poll_step oneConnectedQuery (translate_gamepad dpadUpTrigger200) 0
      = translate_gamepad dpadUpTrigger200 ∧
    (read_controller_state oneConnectedQuery GamepadState.default ≠ GamepadState.default →
      ∃ j, j < XUSER_MAX_COUNT ∧ ∃ g, oneConnectedQuery j = DeviceQuery.connected g) ∧
    ((∀ j, j < XUSER_MAX_COUNT → oneConnectedQuery j = DeviceQuery.disconnected) →
      read_controller_state oneConnectedQuery GamepadState.default = GamepadState.default) :=
  read_controller_state_skip_disconnected oneConnectedQuery GamepadState.default
    (translate_gamepad dpadUpTrigger200) 0 rfl

/-- C7: polling a connected device whose left stick x axis is the advertised
minimum -32768 aborts, because the debug check takes `abs` of the verbatim
copied axis and negating i16::MIN overflows; the neighbouring value -32767 is
handled fine. -/
theorem read_controller_body_aborts_at_min_axis :
    read_controller_body minLXReport = none ∧
    read_controller_body { minLXReport with sThumbLX := -32767 } ≠ none ∧
    (translate_gamepad minLXReport).sticks.l_stick_x = -32768 := by
  refine ⟨?_, ?_, rfl⟩ <;> decide

/-- C5 counterexample: dispatching the destroy-kind message WM_DESTROY while
the flag is true leaves GLOBAL_RUNNING true and performs a further per-message
action (PostQuitMessage), so the claim that any close-kind or destroy-kind
message sets the flag to false with no further action is false. -/
theorem wnd_proc_destroy_keeps_running :
    (wnd_proc WndMsg.wm_destroy { running := true, bufferNull := false }).1.running = true ∧
    (wnd_proc WndMsg.wm_destroy { running := true, bufferNull := false }).2
      = [WndEffect.postQuitMessage] := by
  exact ⟨rfl, rfl⟩

/-- C5 amended: dispatching WM_CLOSE or WM_QUIT sets GLOBAL_RUNNING to false
with no further per-message action; dispatching WM_DESTROY does not touch the
flag and instead posts a quit message, whose own later dispatch (as WM_QUIT)
sets the flag to false. -/
theorem wnd_proc_close_quit_stop_running (s : WndState) :
    wnd_proc WndMsg.wm_close s = ({ s with running := false }, []) ∧
    wnd_proc WndMsg.wm_quit s = ({ s with running := false }, []) ∧
    wnd_proc WndMsg.wm_destroy s = (s, [WndEffect.postQuitMessage]) ∧
    (wnd_proc WndMsg.wm_quit (wnd_proc WndMsg.wm_destroy s).1).1.running = false :=
  ⟨rfl, rfl, rfl, rfl⟩

/-- C9: GLOBAL_RUNNING is true at the moment the frame loop performs its first
read of it: the loop is entered only in the branch where CreateWindowExW
succeeded, and that branch sets the flag to true beforehand. -/
theorem global_running_true_at_loop_entry :
    (main_before_loop initialGlobals true).running = true ∧
    ∀ g : Globals, (main_before_loop g true).running = true :=
  ⟨rfl, fun _ => rfl⟩

/-- C10: a paint-request message arriving while GLOBAL_BUFFER is null is
forwarded to DefWindowProcW, with no present of the buffer and no change to
the globals. -/
theorem wnd_proc_paint_null_buffer (s : WndState) (h : s.bufferNull = true) :
    wnd_proc WndMsg.wm_paint s = (s, [WndEffect.defWindowProc]) ∧
    WndEffect.presentBuffer ∉ (wnd_proc WndMsg.wm_paint s).2 := by
  constructor
  · simp [wnd_proc, h]
  · simp [wnd_proc, h]

/-- C10 witness: with a null buffer before any allocation, a paint request is
forwarded to default handling and nothing is presented. -/
theorem wnd_proc_paint_null_buffer_witness :
    wnd_proc WndMsg.wm_paint { running := false, bufferNull := true }
      = ({ running := false, bufferNull := true }, [WndEffect.defWindowProc]) ∧
    WndEffect.presentBuffer
      ∉ (wnd_proc WndMsg.wm_paint { running := false, bufferNull := true }).2 :=
  wnd_proc_paint_null_buffer { running := false, bufferNull := true } rfl
